import Mathlib

/-!
# Picsgram: access request service, notification feed and post feed

A shallow embedding of `src/services/accessRequestService.js`,
`src/app/(main)/notifications.jsx` (`getNotifications`) and
`src/app/(main)/profile.jsx` (`getPosts`, `onRefresh`), followed by theorems about
them.

Conventions of the embedding

* Timestamps (`created_at`, `expiresat`, `new Date()`) are integers: milliseconds
  since the epoch, the time value of a JavaScript `Date`.
* A key travelling through JavaScript is a `JsId`: a number or a string.
* A thrown value and a returned `error` are objects with a `message` string.
* A service operation is a function of the store it runs against, of the clock
  readings it takes and of one `Fault` per backend call it makes; it yields an
  `Except Err _` (did the `async` function throw?) and the store it leaves.
-/

namespace Picsgram

/-! ## JavaScript values -/

/-- A key as JavaScript sees it: a number or a string. -/
inductive JsId where
  | num (n : Nat)
  | str (s : String)
  deriving DecidableEq, Repr

/-- String conversion of a key, as performed by a template literal. -/
def JsId.toText : JsId → String
  | .num n => toString n
  | .str s => s

/-- An error object: what a backend call returns in `error`, or what is thrown. -/
structure Err where
  message : String
  deriving DecidableEq, Repr

/-! ## Rows and tables -/

/-- A row of `profile_access_requests`. -/
structure RequestRow where
  id : JsId
  senderid : JsId
  receiverid : JsId
  status : String
  created_at : Int
  deriving DecidableEq, Repr

/-- A row of `profile_access_grants`. -/
structure GrantRow where
  id : JsId
  grantedby : JsId
  grantedto : JsId
  expiresat : Int
  isused : Bool
  usedat : Option Int
  deriving DecidableEq, Repr

/-- A row of `notifications`, with the columns `cancelAccessRequest` filters on. -/
structure NotificationRow where
  id : JsId
  senderId : JsId
  receiverId : JsId
  type : String
  data : String
  created_at : Int
  deriving DecidableEq, Repr

/-- A user as joined into a request row: `(id, name, image)`. -/
structure UserRow where
  id : JsId
  name : String
  image : Option String
  deriving DecidableEq, Repr

/-- Modelled from the spec: the backend behind `../lib/supabase`, which is not among
the sources. Section 6 names the tables; `nextId` and `dbNow` stand for the key and
the `created_at` default the backend gives an inserted row. -/
structure Store where
  requests : List RequestRow
  grants : List GrantRow
  notifications : List NotificationRow
  users : List UserRow
  nextId : Nat
  dbNow : Int
  deriving DecidableEq, Repr

/-! ## Backend calls -/

/-- What an awaited query builder resolves to: `{ data, error }`. -/
structure Response (α : Type) where
  data : Option α
  error : Option Err
  deriving DecidableEq, Repr

/-- The behaviour of the backend at one call: it runs the query, it returns an
`error` without touching the store, or the awaited call throws. -/
inductive Fault where
  | ok
  | fails (e : Err)
  | throws (e : Err)
  deriving DecidableEq, Repr

/-- Modelled from the spec: one awaited call on the backend client of
`../lib/supabase` (section 6: an opaque store reached through queries). `exec` is
the query run against the store. -/
def request {α : Type} (f : Fault) (exec : Store → Response α × Store) (s : Store) :
    Except Err (Response α) × Store :=
  match f with
  | .ok => ((Except.ok (exec s).1), (exec s).2)
  | .fails e => (Except.ok { data := none, error := some e }, s)
  | .throws e => (Except.error e, s)

/-- The message of the error the backend gives when `.single()` or `.maybeSingle()`
does not find the number of rows it asks for. -/
def rowCountError : Err :=
  { message := "JSON object requested, multiple (or no) rows returned" }

/-- Modelled from the spec: `.single()` of the backend client: the row when exactly
one row matches, an error otherwise. -/
def single {α : Type} (rows : List α) : Response α :=
  match rows with
  | [r] => { data := some r, error := none }
  | _ => { data := none, error := some rowCountError }

/-- Modelled from the spec: `.maybeSingle()` of the backend client: `null` when no
row matches, the row when exactly one does, an error when several do. -/
def maybeSingle {α : Type} (rows : List α) : Response α :=
  match rows with
  | [] => { data := none, error := none }
  | [r] => { data := some r, error := none }
  | _ => { data := none, error := some rowCountError }

/-! ## Results -/

/-- The object a service operation returns. A field that the returned object
literal does not mention is `none`. -/
structure Result (α : Type) where
  success : Bool
  hasAccess : Option Bool := none
  isUsed : Option Bool := none
  isExpired : Option Bool := none
  msg : Option String := none
  data : Option α := none
  senderId : Option JsId := none
  deriving DecidableEq, Repr

/-- The `try { ... } catch (error) { ... }` that wraps every operation: a throw from
the body runs the handler on the store as the body left it. -/
def catching {ρ : Type} (body : Except Err ρ × Store) (handler : Err → Except Err ρ) :
    Except Err ρ × Store :=
  match body.1 with
  | .ok r => (Except.ok r, body.2)
  | .error e => (handler e, body.2)

/-- The handler shared by all operations but `checkProfileAccess`:
`return { success: false, msg: error.message }`. -/
def failWith {α : Type} (e : Err) : Except Err (Result α) :=
  Except.ok { success := false, msg := some e.message }

/-! ## checkProfileAccess -/

/-- The query of `checkProfileAccess`:
`from('profile_access_grants').select('*').eq('grantedto', _).eq('grantedby', _)`. -/
def grantsFor (grantedTo grantedBy : JsId) (s : Store) : List GrantRow :=
  s.grants.filter (fun g => g.grantedto = grantedTo ∧ g.grantedby = grantedBy)

/-- The body of `checkProfileAccess` after its query has resolved to `res`; `now` is
the reading of `new Date()`. -/
def checkProfileAccessOn (res : Response GrantRow) (now : Int) : Result GrantRow :=
  if res.error.isSome then
    { success := false, hasAccess := some false }
  else
    match res.data with
    | none => { success := true, hasAccess := some false }
    | some data =>
      if data.isused then
        { success := true, hasAccess := some false, isUsed := some true }
      else if now > data.expiresat then
        { success := true, hasAccess := some false, isExpired := some true }
      else
        { success := true, hasAccess := some true, data := some data }

/-- Embeds `checkProfileAccess(grantedTo, grantedBy)`, lines 155-198. -/
def checkProfileAccess (f : Fault) (now : Int) (grantedTo grantedBy : JsId) (s : Store) :
    Except Err (Result GrantRow) × Store :=
  catching
    (match request f (fun st => (maybeSingle (grantsFor grantedTo grantedBy st), st)) s with
     | (.error e, s1) => (Except.error e, s1)
     | (.ok res, s1) => (Except.ok (checkProfileAccessOn res now), s1))
    (fun _ => Except.ok { success := false, hasAccess := some false })

/-! ## Dates -/

/-- The time zone of the host, as the two readings ECMAScript takes of it: the offset
of local time from UTC in milliseconds, looked up at a UTC time value
(`LocalTZA(t, true)`) and at a local time value (`LocalTZA(t, false)`). -/
structure TimeZone where
  offsetAtUtc : Int → Int
  offsetAtLocal : Int → Int

/-- Milliseconds in a second. -/
def msPerSecond : Int := 1000

/-- Milliseconds in a minute. -/
def msPerMinute : Int := 60000

/-- Milliseconds in an hour. -/
def msPerHour : Int := 3600000

/-- Milliseconds in a day. -/
def msPerDay : Int := 86400000

/-- ECMAScript `LocalTime(t)`. -/
def LocalTime (tz : TimeZone) (t : Int) : Int := t + tz.offsetAtUtc t

/-- ECMAScript `UTC(t)`. -/
def UTC (tz : TimeZone) (t : Int) : Int := t - tz.offsetAtLocal t

/-- ECMAScript `Day(t)`. -/
def Day (t : Int) : Int := t / msPerDay

/-- ECMAScript `HourFromTime(t)`. -/
def HourFromTime (t : Int) : Int := (t / msPerHour) % 24

/-- ECMAScript `MinFromTime(t)`. -/
def MinFromTime (t : Int) : Int := (t / msPerMinute) % 60

/-- ECMAScript `SecFromTime(t)`. -/
def SecFromTime (t : Int) : Int := (t / msPerSecond) % 60

/-- ECMAScript `msFromTime(t)`. -/
def msFromTime (t : Int) : Int := t % msPerSecond

/-- ECMAScript `MakeTime(hour, min, sec, ms)`. -/
def MakeTime (hour min sec ms : Int) : Int :=
  hour * msPerHour + min * msPerMinute + sec * msPerSecond + ms

/-- ECMAScript `MakeDate(day, time)`. -/
def MakeDate (day time : Int) : Int := day * msPerDay + time

/-- Embeds `Date.prototype.getHours` on a date of time value `t`. -/
def getHours (tz : TimeZone) (t : Int) : Int := HourFromTime (LocalTime tz t)

/-- Embeds `Date.prototype.setHours(hour)` on a date of time value `t`: the new time value. -/
def setHours (tz : TimeZone) (t : Int) (hour : Int) : Int :=
  UTC tz (MakeDate (Day (LocalTime tz t))
    (MakeTime hour (MinFromTime (LocalTime tz t)) (SecFromTime (LocalTime tz t))
      (msFromTime (LocalTime tz t))))

/-- A zone whose offset never changes. -/
def fixedZone (offset : Int) : TimeZone :=
  { offsetAtUtc := fun _ => offset, offsetAtLocal := fun _ => offset }

/-- A zone five hours behind UTC that moves to four hours behind at local time
2025-03-09 03:00 (UTC 2025-03-09 07:00), the way US Eastern time does. -/
def easternZone : TimeZone :=
  { offsetAtUtc := fun t => if t < 1741503600000 then -18000000 else -14400000
    offsetAtLocal := fun t => if t < 1741489200000 then -18000000 else -14400000 }

/-! ## JSON text of `{ requestId }` -/

/-- The one-character string of the double quote. -/
def doubleQuote : String := String.singleton (Char.ofNat 34)

/-- The one-character string of the backslash. -/
def backslash : String := String.singleton (Char.ofNat 92)

/-- A lower-case hexadecimal digit. -/
def hexDigit (n : Nat) : String :=
  String.singleton (if n < 10 then Char.ofNat (48 + n) else Char.ofNat (87 + n))

/-- One code point of ECMAScript `QuoteJSONString`. -/
def quoteJSONChar (c : Char) : String :=
  if c.toNat = 34 then backslash ++ doubleQuote
  else if c.toNat = 92 then backslash ++ backslash
  else if c.toNat = 8 then backslash ++ "b"
  else if c.toNat = 9 then backslash ++ "t"
  else if c.toNat = 10 then backslash ++ "n"
  else if c.toNat = 12 then backslash ++ "f"
  else if c.toNat = 13 then backslash ++ "r"
  else if c.toNat < 32 then
    backslash ++ "u00" ++ hexDigit (c.toNat / 16) ++ hexDigit (c.toNat % 16)
  else String.singleton c

/-- ECMAScript `QuoteJSONString`. -/
def quoteJSONString (s : String) : String :=
  doubleQuote ++ String.join (s.toList.map quoteJSONChar) ++ doubleQuote

/-- Embeds `JSON.stringify({ requestId: requestId })`. -/
def stringifyRequestId (requestId : JsId) : String :=
  String.singleton (Char.ofNat 123) ++ doubleQuote ++ "requestId" ++ doubleQuote ++ ":" ++
    (match requestId with
     | .num n => toString n
     | .str s => quoteJSONString s) ++
    String.singleton (Char.ofNat 125)

/-! ## Sorting -/

/-- Insertion of `x` in front of the first element it does not come after, for a
comparator in the convention of `Array.prototype.sort`. -/
def sortInsert {α : Type} (cmp : α → α → Int) (x : α) : List α → List α
  | [] => [x]
  | y :: ys => if cmp x y ≤ 0 then x :: y :: ys else y :: sortInsert cmp x ys

/-- Embeds `Array.prototype.sort(cmp)`: a stable sort by the comparator. -/
def jsSort {α : Type} (cmp : α → α → Int) : List α → List α
  | [] => []
  | x :: xs => sortInsert cmp x (jsSort cmp xs)

/-! ## The access request service -/

/-- The filter of `createAccessRequest`:
`.eq('senderid', _).eq('receiverid', _).eq('status', 'pending')`. -/
def pendingFor (senderId receiverId : JsId) (s : Store) : List RequestRow :=
  s.requests.filter
    (fun r => r.senderid = senderId ∧ r.receiverid = receiverId ∧ r.status = "pending")

/-- Modelled from the spec: the backend running
`insert({ senderid, receiverid, status: 'pending' }).select().single()` (section 4.1:
inserts a pending row); the key and `created_at` are the backend's defaults. -/
def insertRequest (senderId receiverId : JsId) (s : Store) : Response RequestRow × Store :=
  let row : RequestRow :=
    { id := .num s.nextId, senderid := senderId, receiverid := receiverId,
      status := "pending", created_at := s.dbNow }
  (single [row], { s with requests := s.requests ++ [row], nextId := s.nextId + 1 })

/-- Modelled from the spec: the backend running
`insert({ grantedby, grantedto, expiresat }).select().single()`; the key is the
backend's default, and a new grant is not used (section 3: mutated once, to set
isUsed/usedAt). -/
def insertGrant (grantedby grantedto : JsId) (expiresat : Int) (s : Store) :
    Response GrantRow × Store :=
  let row : GrantRow :=
    { id := .num s.nextId, grantedby := grantedby, grantedto := grantedto,
      expiresat := expiresat, isused := false, usedat := none }
  (single [row], { s with grants := s.grants ++ [row], nextId := s.nextId + 1 })

/-- Modelled from the spec: the backend running
`from('profile_access_grants').delete().eq('grantedby', _).eq('grantedto', _)`. -/
def deleteGrantsOfPair (grantedby grantedto : JsId) (s : Store) : Response Unit × Store :=
  ({ data := none, error := none },
   { s with grants :=
       s.grants.filter (fun g => ¬ (g.grantedby = grantedby ∧ g.grantedto = grantedto)) })

/-- Modelled from the spec: the backend running
`from('profile_access_grants').delete().eq('id', _)`. -/
def deleteGrantById (grantId : JsId) (s : Store) : Response Unit × Store :=
  ({ data := none, error := none },
   { s with grants := s.grants.filter (fun g => ¬ g.id = grantId) })

/-- Modelled from the spec: the backend running
`from('profile_access_requests').delete().eq('id', _)`. -/
def deleteRequestById (requestId : JsId) (s : Store) : Response Unit × Store :=
  ({ data := none, error := none },
   { s with requests := s.requests.filter (fun r => ¬ r.id = requestId) })

/-- The filter of the notification delete in `cancelAccessRequest`. -/
def isRequestNotification (requestId senderId receiverId : JsId) (n : NotificationRow) : Bool :=
  n.senderId = senderId ∧ n.receiverId = receiverId ∧ n.type = "profile_access_request" ∧
    n.data = stringifyRequestId requestId

/-- Modelled from the spec: the backend running the notification delete of
`cancelAccessRequest`. -/
def deleteRequestNotification (requestId senderId receiverId : JsId) (s : Store) :
    Response Unit × Store :=
  ({ data := none, error := none },
   { s with notifications :=
       s.notifications.filter (fun n => ! isRequestNotification requestId senderId receiverId n) })

/-- Modelled from the spec: the backend running
`update({ isused: true, usedat }).eq('id', _)`. -/
def markGrantUsed (grantId : JsId) (usedat : Int) (s : Store) : Response Unit × Store :=
  ({ data := none, error := none },
   { s with grants :=
       s.grants.map (fun g =>
         if g.id = grantId then { g with isused := true, usedat := some usedat } else g) })

/-- Embeds `createAccessRequest(senderId, receiverId)`, lines 4-38. `f1` is the backend at
the existence query, `f2` at the insert. The existence query selects `id` only. -/
def createAccessRequest (f1 f2 : Fault) (senderId receiverId : JsId) (s : Store) :
    Except Err (Result RequestRow) × Store :=
  catching
    (match request f1
        (fun st => (single ((pendingFor senderId receiverId st).map (fun r => r.id)), st)) s with
     | (.error e, s1) => (Except.error e, s1)
     | (.ok existing, s1) =>
       if existing.data.isSome then
         (Except.ok { success := false, msg := some "Request already pending" }, s1)
       else
         match request f2 (insertRequest senderId receiverId) s1 with
         | (.error e, s2) => (Except.error e, s2)
         | (.ok res, s2) =>
           match res.error with
           | some error => (Except.ok { success := false, msg := some error.message }, s2)
           | none => (Except.ok { success := true, data := res.data }, s2))
    failWith

/-- Embeds `acceptAccessRequest(requestId, senderId, receiverId)`, lines 89-133. `f1` is the
backend at the delete of prior grants, `f2` at the grant insert, `f3` at the delete of
the request; `t` is the reading of `new Date()` on line 99 and `tz` the host's zone. -/
def acceptAccessRequest (f1 f2 f3 : Fault) (tz : TimeZone) (t : Int)
    (requestId senderId receiverId : JsId) (s : Store) :
    Except Err (Result GrantRow) × Store :=
  catching
    (match request f1 (deleteGrantsOfPair receiverId senderId) s with
     | (.error e, s1) => (Except.error e, s1)
     | (.ok _, s1) =>
       let expiresAt := setHours tz t (getHours tz t + 24)
       match request f2 (insertGrant receiverId senderId expiresAt) s1 with
       | (.error e, s2) => (Except.error e, s2)
       | (.ok res, s2) =>
         match res.error with
         | some error => (Except.ok { success := false, msg := some error.message }, s2)
         | none =>
           match request f3 (deleteRequestById requestId) s2 with
           | (.error e, s3) => (Except.error e, s3)
           | (.ok _, s3) =>
             (Except.ok { success := true, data := res.data, senderId := some senderId }, s3))
    failWith

/-- The shape shared by `rejectAccessRequest`, `useProfileAccess` and
`deleteProfileAccess`: one call, `{ success: false, msg }` on its error,
`{ success: true }` otherwise. -/
def oneCall (f : Fault) (exec : Store → Response Unit × Store) (s : Store) :
    Except Err (Result Unit) × Store :=
  catching
    (match request f exec s with
     | (.error e, s1) => (Except.error e, s1)
     | (.ok res, s1) =>
       match res.error with
       | some error => (Except.ok { success := false, msg := some error.message }, s1)
       | none => (Except.ok { success := true }, s1))
    failWith

/-- Embeds `rejectAccessRequest(requestId)`, lines 136-152. -/
def rejectAccessRequest (f : Fault) (requestId : JsId) (s : Store) :
    Except Err (Result Unit) × Store :=
  oneCall f (deleteRequestById requestId) s

/-- Embeds `useProfileAccess(grantId)`, lines 201-220; `now` is the reading of `new Date()`. -/
def useProfileAccess (f : Fault) (now : Int) (grantId : JsId) (s : Store) :
    Except Err (Result Unit) × Store :=
  oneCall f (markGrantUsed grantId now) s

/-- Embeds `deleteProfileAccess(grantId)`, lines 258-274. -/
def deleteProfileAccess (f : Fault) (grantId : JsId) (s : Store) :
    Except Err (Result Unit) × Store :=
  oneCall f (deleteGrantById grantId) s

/-- Embeds `cancelAccessRequest(requestId, senderId, receiverId)`, lines 223-255. `f1` is the
backend at the request delete, `f2` at the notification delete. -/
def cancelAccessRequest (f1 f2 : Fault) (requestId senderId receiverId : JsId) (s : Store) :
    Except Err (Result Unit) × Store :=
  catching
    (match request f1 (deleteRequestById requestId) s with
     | (.error e, s1) => (Except.error e, s1)
     | (.ok res, s1) =>
       match res.error with
       | some requestError =>
         (Except.ok { success := false, msg := some requestError.message }, s1)
       | none =>
         match request f2 (deleteRequestNotification requestId senderId receiverId) s1 with
         | (.error e, s2) => (Except.error e, s2)
         | (.ok _, s2) => (Except.ok { success := true }, s2))
    failWith

/-- A row of `select('*, sender: senderid(id, name, image)')`. -/
structure ReceivedRequest where
  id : JsId
  senderid : JsId
  receiverid : JsId
  status : String
  created_at : Int
  sender : Option UserRow
  deriving DecidableEq, Repr

/-- A row of `select('*, receiver: receiverid(id, name, image)')`. -/
structure SentRequest where
  id : JsId
  senderid : JsId
  receiverid : JsId
  status : String
  created_at : Int
  receiver : Option UserRow
  deriving DecidableEq, Repr

/-- Modelled from the spec: the backend running the query of `getAccessRequests`
(section 4.1: pending rows for a user joined with the counterpart's display identity,
newest first). -/
def receivedRequests (userId : JsId) (s : Store) : Response (List ReceivedRequest) × Store :=
  ({ data := some
       (jsSort (fun a b => b.created_at - a.created_at)
         ((s.requests.filter (fun r => r.receiverid = userId ∧ r.status = "pending")).map
           (fun r =>
             { id := r.id, senderid := r.senderid, receiverid := r.receiverid,
               status := r.status, created_at := r.created_at,
               sender := s.users.find? (fun u => u.id = r.senderid) })))
     error := none }, s)

/-- Modelled from the spec: the backend running the query of `getSentAccessRequests`
(section 4.1, as for `receivedRequests`). -/
def sentRequests (userId : JsId) (s : Store) : Response (List SentRequest) × Store :=
  ({ data := some
       (jsSort (fun a b => b.created_at - a.created_at)
         ((s.requests.filter (fun r => r.senderid = userId ∧ r.status = "pending")).map
           (fun r =>
             { id := r.id, senderid := r.senderid, receiverid := r.receiverid,
               status := r.status, created_at := r.created_at,
               receiver := s.users.find? (fun u => u.id = r.receiverid) })))
     error := none }, s)

/-- The shape shared by `getAccessRequests` and `getSentAccessRequests`: one query,
`{ success: false, msg }` on its error, `{ success: true, data }` otherwise. -/
def oneQuery {α : Type} (f : Fault) (exec : Store → Response α × Store) (s : Store) :
    Except Err (Result α) × Store :=
  catching
    (match request f exec s with
     | (.error e, s1) => (Except.error e, s1)
     | (.ok res, s1) =>
       match res.error with
       | some error => (Except.ok { success := false, msg := some error.message }, s1)
       | none => (Except.ok { success := true, data := res.data }, s1))
    failWith

/-- Embeds `getAccessRequests(userId)`, lines 41-62. -/
def getAccessRequests (f : Fault) (userId : JsId) (s : Store) :
    Except Err (Result (List ReceivedRequest)) × Store :=
  oneQuery f (receivedRequests userId) s

/-- Embeds `getSentAccessRequests(userId)`, lines 65-86. -/
def getSentAccessRequests (f : Fault) (userId : JsId) (s : Store) :
    Except Err (Result (List SentRequest)) × Store :=
  oneQuery f (sentRequests userId) s

/-! ## The notification feed -/

/-- An item of the notification list of the screen. -/
structure NotificationItem where
  id : JsId
  senderId : JsId
  receiverId : JsId
  title : String
  type : String
  data : String
  is_read : Bool
  created_at : Int
  sender : Option UserRow
  _isSentRequest : Bool
  deriving DecidableEq, Repr

/-- The arrow function mapped over `sentRes.data`, lines 42-53. -/
def sentAsNotification (req : SentRequest) : NotificationItem :=
  { id := .str ("sent-" ++ req.id.toText)
    senderId := req.senderid
    receiverId := req.receiverid
    title := "You sent a request"
    type := "profile_access_request"
    data := stringifyRequestId req.id
    is_read := false
    created_at := req.created_at
    sender := req.receiver
    _isSentRequest := true }

/-- Modelled from the spec: a notification as `fetchNotifications` of
`../../services/notificationService`, which is not among the sources, returns it: a
stored row of `notifications` with its sender joined (section 4.2). Its `id` is the key
the backend gave the row, a number, as for the rows that `insertRequest` and
`insertGrant` add. -/
structure StoredNotification where
  id : Nat
  senderId : JsId
  receiverId : JsId
  title : String
  type : String
  data : String
  is_read : Bool
  created_at : Int
  sender : Option UserRow
  deriving DecidableEq, Repr

/-- A stored notification as an item of the list of the screen; it has no
`_isSentRequest` field, which reads as false. -/
def StoredNotification.toItem (n : StoredNotification) : NotificationItem :=
  { id := .num n.id
    senderId := n.senderId
    receiverId := n.receiverId
    title := n.title
    type := n.type
    data := n.data
    is_read := n.is_read
    created_at := n.created_at
    sender := n.sender
    _isSentRequest := false }

/-- Embeds `getNotifications`, lines 24-65, from what the two fetches resolved to: the list
handed to `setNotifications`, or `none` when the `catch` is reached (spreading or
measuring a `data` that is missing throws) and the list is left as it was. -/
def getNotifications (notifRes : Result (List NotificationItem))
    (sentRes : Result (List SentRequest)) : Option (List NotificationItem) :=
  let afterNotif : Option (List NotificationItem) :=
    if notifRes.success then notifRes.data else some []
  match afterNotif with
  | none => none
  | some allItems =>
    let afterSent : Option (List NotificationItem) :=
      if sentRes.success then
        match sentRes.data with
        | none => none
        | some sent =>
          if sent.length > 0 then some (allItems ++ sent.map sentAsNotification)
          else some allItems
      else some allItems
    match afterSent with
    | none => none
    | some allItems => some (jsSort (fun a b => b.created_at - a.created_at) allItems)

/-! ## The post feed -/

/-- A post of the feed. -/
structure Post where
  id : JsId
  deriving DecidableEq, Repr

/-- The state of the profile screen that `getPosts` reads and writes. -/
structure FeedState where
  posts : List Post
  hasMore : Bool
  limit : Nat
  deriving DecidableEq, Repr

/-- The state of lines 20-23: `useState([])`, `useState(true)`, `useState(0)`. -/
def FeedState.initial : FeedState := { posts := [], hasMore := true, limit := 0 }

/-- Embeds `getPosts`, lines 41-54, run on the state `st`. `fetchPosts` is the function of
`../../services/postService`, which is not among the sources; `user` is `user?.id`
when it is truthy. The second component is the limit handed to `fetchPosts`, `none`
when no fetch is made. A successful result without `data` throws at
`res.data.length`, after `setLimit`. -/
def getPosts (fetchPosts : Nat → JsId → Result (List Post)) (user : Option JsId)
    (st : FeedState) : FeedState × Option Nat :=
  match user with
  | none => (st, none)
  | some userId =>
    if !st.hasMore then (st, none)
    else
      let newLimit := st.limit + 4
      let res := fetchPosts newLimit userId
      if res.success then
        match res.data with
        | none => ({ st with limit := newLimit }, some newLimit)
        | some data =>
          ({ posts := data
             hasMore := if st.posts.length = data.length then false else st.hasMore
             limit := newLimit }, some newLimit)
      else ({ st with limit := newLimit }, some newLimit)

/-- Modelled from the spec: `fetchPosts` of `../../services/postService` against a
backend holding the posts `all` of the user, where every fetch succeeds (section 4.3:
each fetch requests the full accumulated count, not an offset). -/
def fetchFrom (all : List Post) (limit : Nat) (_userId : JsId) : Result (List Post) :=
  { success := true, data := some (all.take limit) }

/-- The state after `k` calls of `getPosts`, each on the state the previous one left. -/
def getPostsTimes (fetchPosts : Nat → JsId → Result (List Post)) (user : Option JsId) :
    Nat → FeedState → FeedState
  | 0, st => st
  | k + 1, st => (getPosts fetchPosts user (getPostsTimes fetchPosts user k st)).1

/-- What a run of `onRefresh` leaves: the state of the feed, the limit handed to
`fetchPosts` (`none` when no fetch is made) and the flag `refreshing`. -/
structure RefreshOutcome where
  state : FeedState
  requested : Option Nat
  refreshing : Bool
  deriving DecidableEq, Repr

/-- The constant `refreshLimit` of line 65:
`currentPostCount > 0 ? currentPostCount : 4`. -/
def refreshLimit (st : FeedState) : Nat :=
  if st.posts.length > 0 then st.posts.length else 4

/-- Embeds `onRefresh`, lines 56-83, run on the state `st` with the flag `refreshing`;
`fetchPosts` and `user` are as for `getPosts`. A successful result without `data`
throws at `res.data.length` on line 73, before `setPosts` and before
`setRefreshing(false)`. -/
def onRefresh (fetchPosts : Nat → JsId → Result (List Post)) (user : Option JsId)
    (refreshing : Bool) (st : FeedState) : RefreshOutcome :=
  match user with
  | none => { state := st, requested := none, refreshing := refreshing }
  | some userId =>
    let limit := refreshLimit st
    let res := fetchPosts limit userId
    if res.success then
      match res.data with
      | none =>
        { state := { posts := st.posts, hasMore := true, limit := limit }
          requested := some limit, refreshing := true }
      | some data =>
        { state := { posts := data
                     hasMore := if data.length < limit then false else true
                     limit := limit }
          requested := some limit, refreshing := false }
    else
      { state := { posts := st.posts, hasMore := true, limit := limit }
        requested := some limit, refreshing := false }

/-! ## Sequences of operations -/

/-- A call of one of the operations of the service that write to the store, with its
arguments and the clock readings it takes. -/
inductive Op where
  | createAccessRequest (senderId receiverId : JsId)
  | acceptAccessRequest (tz : TimeZone) (t : Int) (requestId senderId receiverId : JsId)
  | rejectAccessRequest (requestId : JsId)
  | cancelAccessRequest (requestId senderId receiverId : JsId)
  | useProfileAccess (now : Int) (grantId : JsId)
  | deleteProfileAccess (grantId : JsId)

/-- The store an operation leaves when every backend call it makes is carried out. -/
def Op.run (s : Store) : Op → Store
  | .createAccessRequest senderId receiverId =>
    (Picsgram.createAccessRequest .ok .ok senderId receiverId s).2
  | .acceptAccessRequest tz t requestId senderId receiverId =>
    (Picsgram.acceptAccessRequest .ok .ok .ok tz t requestId senderId receiverId s).2
  | .rejectAccessRequest requestId => (Picsgram.rejectAccessRequest .ok requestId s).2
  | .cancelAccessRequest requestId senderId receiverId =>
    (Picsgram.cancelAccessRequest .ok .ok requestId senderId receiverId s).2
  | .useProfileAccess now grantId => (Picsgram.useProfileAccess .ok now grantId s).2
  | .deleteProfileAccess grantId => (Picsgram.deleteProfileAccess .ok grantId s).2

/-- The store after a sequence of operations, each run on the store the previous one
left. -/
def runOps (s : Store) (ops : List Op) : Store := ops.foldl Op.run s

/-- Each (sender, receiver) pair has at most one pending request. -/
def atMostOnePending (s : Store) : Prop :=
  ∀ senderId receiverId, (pendingFor senderId receiverId s).length ≤ 1

/-! ## Outcomes of an access check -/

/-- The four outcomes of an access check that section 4.1 lists. -/
inductive Outcome where
  | noGrant
  | used
  | expired
  | valid
  deriving DecidableEq, Repr

/-- The result object that reports each outcome: the object literals of lines 169,
174, 190 and 193. -/
def reports (r : Result GrantRow) : Outcome → Prop
  | .noGrant => r = { success := true, hasAccess := some false }
  | .used => r = { success := true, hasAccess := some false, isUsed := some true }
  | .expired => r = { success := true, hasAccess := some false, isExpired := some true }
  | .valid =>
    r.data.isSome = true ∧ r = { success := true, hasAccess := some true, data := r.data }

instance (r : Result GrantRow) (o : Outcome) : Decidable (reports r o) := by
  cases o <;> unfold reports <;> infer_instance

/-! ## Failures -/

/-- The backend call returns the error `e` or throws `e`. -/
def Fault.failsWith (f : Fault) (e : Err) : Prop := f = .fails e ∨ f = .throws e

/-- The operation returned (it did not throw), and what it returned is
`{ success: false, msg: e.message }`. -/
def returnsFailure {α : Type} (out : Except Err (Result α) × Store) (e : Err) : Prop :=
  out.1 = Except.ok { success := false, msg := some e.message }

/-- The operation returned: the promise of the `async` function is not rejected. -/
def returns {α : Type} (out : Except Err (Result α) × Store) : Prop :=
  ∃ r, out.1 = Except.ok r

instance (f : Fault) (e : Err) : Decidable (f.failsWith e) := by
  unfold Fault.failsWith
  infer_instance

instance {α : Type} (out : Except Err (Result α) × Store) : Decidable (returns out) :=
  match h : out.1 with
  | .ok r => isTrue ⟨r, h⟩
  | .error _ => isFalse (by rintro ⟨r, hr⟩; rw [h] at hr; cases hr)

/-! ## Stores and inputs used as witnesses -/

/-- A store holding one unused grant from user 2 to user 1 that expires at 1000. -/
def oneGrantStore : Store :=
  { requests := [], notifications := [], users := [], nextId := 10, dbNow := 0
    grants := [{ id := .num 5, grantedby := .num 2, grantedto := .num 1,
                 expiresat := 1000, isused := false, usedat := none }] }

/-- A grant from user 2 to user 1, used at 900, that expires at 1000. -/
def usedGrant : GrantRow :=
  { id := .num 5, grantedby := .num 2, grantedto := .num 1,
    expiresat := 1000, isused := true, usedat := some 900 }

/-- A store holding `usedGrant` only. -/
def usedGrantStore : Store :=
  { requests := [], notifications := [], users := [], nextId := 10, dbNow := 0
    grants := [usedGrant] }

/-- A store in which user 1 has a pending request 9 to user 2 while `usedGrant`, an
earlier grant from user 2 to user 1, is still there. -/
def staleGrantStore : Store :=
  { requests := [{ id := .num 9, senderid := .num 1, receiverid := .num 2,
                   status := "pending", created_at := 4000 }]
    grants := [usedGrant], notifications := [], users := [], nextId := 10, dbNow := 5000 }

/-- The grant that accepting request 9 at time 5000 on a host at UTC inserts into
`staleGrantStore`. -/
def acceptedGrant : GrantRow :=
  { id := .num 10, grantedby := .num 2, grantedto := .num 1,
    expiresat := 86405000, isused := false, usedat := none }

/-- The store `staleGrantStore` after that acceptance, all backend calls carried out. -/
def acceptedStore : Store :=
  { requests := [], grants := [acceptedGrant], notifications := [], users := []
    nextId := 11, dbNow := 5000 }

/-- The result of that acceptance. -/
def acceptedResult : Result GrantRow :=
  { success := true, data := some acceptedGrant, senderId := some (.num 1) }

/-- A store in which user 1 has two pending requests to user 2. -/
def twoPendingStore : Store :=
  { requests := [{ id := .num 8, senderid := .num 1, receiverid := .num 2,
                   status := "pending", created_at := 3000 },
                 { id := .num 9, senderid := .num 1, receiverid := .num 2,
                   status := "pending", created_at := 3001 }]
    grants := [], notifications := [], users := [], nextId := 10, dbNow := 5000 }

/-- A notification of user 1 to user 2 about a request 7 that is not in the table. -/
def otherNotification : NotificationRow :=
  { id := .num 31, senderId := .num 1, receiverId := .num 2
    type := "profile_access_request", data := stringifyRequestId (.num 7), created_at := 3500 }

/-- A store in which user 1 has the pending request 9 to user 2, with the notification
of that request next to `otherNotification`. -/
def notifiedStore : Store :=
  { requests := [{ id := .num 9, senderid := .num 1, receiverid := .num 2,
                   status := "pending", created_at := 4000 }]
    grants := []
    notifications :=
      [{ id := .num 30, senderId := .num 1, receiverId := .num 2
         type := "profile_access_request", data := stringifyRequestId (.num 9)
         created_at := 4000 }, otherNotification]
    users := [], nextId := 40, dbNow := 5000 }

/-- Two stored notifications, with the keys 7 and 8. -/
def storedItems : List StoredNotification :=
  [{ id := 7, senderId := .num 3, receiverId := .num 1, title := "liked your post"
     type := "like", data := "", is_read := false, created_at := 2000, sender := none },
   { id := 8, senderId := .num 4, receiverId := .num 1, title := "commented"
     type := "comment", data := "", is_read := true, created_at := 6000, sender := none }]

/-- Two requests sent by user 1. -/
def sentItems : List SentRequest :=
  [{ id := .num 7, senderid := .num 1, receiverid := .num 2, status := "pending"
     created_at := 4000, receiver := none },
   { id := .num 8, senderid := .num 1, receiverid := .num 5, status := "pending"
     created_at := 1000, receiver := none }]

/-- The state of the feed of user `userId` after `k` calls of `getPosts` from the
initial state, against a backend holding the posts `all`. -/
def feedAfter (all : List Post) (userId : JsId) (k : Nat) : FeedState :=
  getPostsTimes (fetchFrom all) (some userId) k FeedState.initial

/-- The number of the fetch at which a backend holding `n` posts is found exhausted. -/
def lastFetch (n : Nat) : Nat := (n + 3) / 4 + 1

/-- Posts numbered from 1 to `n`, newest first. -/
def postsTo : Nat → List Post
  | 0 => []
  | n + 1 => { id := .num (n + 1) } :: postsTo n

/-- A feed that displays 3 posts and has been found exhausted. -/
def exhaustedFeed : FeedState := { posts := postsTo 3, hasMore := false, limit := 8 }

/-- A sequence of operations on `notifiedStore`: user 1 asks user 2 again, user 3 asks
user 2, user 2 accepts request 9 of user 1, user 1 asks again, user 3 cancels. -/
def sampleOps : List Op :=
  [.createAccessRequest (.num 1) (.num 2),
   .createAccessRequest (.num 3) (.num 2),
   .acceptAccessRequest (fixedZone 0) 5000 (.num 9) (.num 1) (.num 2),
   .createAccessRequest (.num 1) (.num 2),
   .cancelAccessRequest (.num 40) (.num 3) (.num 2)]

/-- The time value of 2025-03-08T15:00:00Z, 10:00 of the day before the clocks of
`easternZone` move forward. -/
def easternAcceptTime : Int := 1741446000000

/-- The grant that accepting request 9 at `easternAcceptTime` on a host in
`easternZone` inserts into `staleGrantStore`: it expires at 2025-03-09T14:00:00Z. -/
def easternGrant : GrantRow :=
  { id := .num 10, grantedby := .num 2, grantedto := .num 1,
    expiresat := 1741528800000, isused := false, usedat := none }

/-! ## Lemmas on the backend model -/

theorem grantsFor_mem (grantedTo grantedBy : JsId) (s : Store) (g : GrantRow) :
    g ∈ grantsFor grantedTo grantedBy s ↔
      g ∈ s.grants ∧ g.grantedto = grantedTo ∧ g.grantedby = grantedBy := by
  simp [grantsFor, List.mem_filter]

theorem checkProfileAccess_ok (now : Int) (grantedTo grantedBy : JsId) (s : Store) :
    checkProfileAccess .ok now grantedTo grantedBy s =
      (Except.ok (checkProfileAccessOn (maybeSingle (grantsFor grantedTo grantedBy s)) now), s) := by
  rfl

/-! ## Theorems -/

/-- C1: when the grant query succeeds and matches at most one row, `checkProfileAccess`
returns and leaves the store alone, `hasAccess` is `true` exactly when a grant row of
the pair is present, is not used and `now <= expiresat`, and then `data` is that row. -/
theorem checkProfileAccess_hasAccess_iff (now : Int) (grantedTo grantedBy : JsId) (s : Store)
    (hrows : (grantsFor grantedTo grantedBy s).length ≤ 1) :
    ∃ r, checkProfileAccess .ok now grantedTo grantedBy s = (Except.ok r, s) ∧
      (r.hasAccess = some true ↔
        ∃ g ∈ s.grants, g.grantedto = grantedTo ∧ g.grantedby = grantedBy ∧
          g.isused = false ∧ now ≤ g.expiresat) ∧
      (r.hasAccess = some true →
        ∀ g ∈ s.grants, g.grantedto = grantedTo → g.grantedby = grantedBy →
          r.data = some g) := by
  refine ⟨_, checkProfileAccess_ok now grantedTo grantedBy s, ?_⟩
  have hmem := grantsFor_mem grantedTo grantedBy s
  match hgs : grantsFor grantedTo grantedBy s, hrows with
  | [], _ =>
    rw [hgs] at hmem
    have hno : ∀ g ∈ s.grants, g.grantedto = grantedTo → g.grantedby = grantedBy → False := by
      intro g hg h1 h2
      have := (hmem g).2 ⟨hg, h1, h2⟩
      simp at this
    constructor
    · constructor
      · intro h
        simp [maybeSingle, checkProfileAccessOn] at h
      · rintro ⟨g, hg, h1, h2, _⟩
        exact (hno g hg h1 h2).elim
    · intro _ g hg h1 h2
      exact (hno g hg h1 h2).elim
  | [g0], _ =>
    rw [hgs] at hmem
    have hg0 := (hmem g0).1 (by simp)
    have huniq : ∀ g ∈ s.grants, g.grantedto = grantedTo → g.grantedby = grantedBy → g = g0 := by
      intro g hg h1 h2
      have := (hmem g).2 ⟨hg, h1, h2⟩
      simpa using this
    by_cases hu : g0.isused = true
    · simp only [maybeSingle, checkProfileAccessOn, hu]
      constructor
      · constructor
        · intro h
          simp at h
        · rintro ⟨g, hg, h1, h2, h3, _⟩
          rw [huniq g hg h1 h2, hu] at h3
          simp at h3
      · intro h
        simp at h
    · have hu' : g0.isused = false := by simpa using hu
      by_cases he : now > g0.expiresat
      · simp only [maybeSingle, checkProfileAccessOn, hu', he]
        constructor
        · constructor
          · intro h
            simp at h
          · rintro ⟨g, hg, h1, h2, _, h4⟩
            rw [huniq g hg h1 h2] at h4
            omega
        · intro h
          simp at h
      · simp only [maybeSingle, checkProfileAccessOn, hu', he]
        constructor
        · constructor
          · intro _
            exact ⟨g0, hg0.1, hg0.2.1, hg0.2.2, hu', by omega⟩
          · intro _
            simp
        · intro _ g hg h1 h2
          simp [huniq g hg h1 h2]
  | _ :: _ :: _, h => simp at h

theorem checkProfileAccess_hasAccess_iff_witness :
    (grantsFor (.num 1) (.num 2) oneGrantStore).length ≤ 1 ∧
    ∃ r, checkProfileAccess .ok 1000 (.num 1) (.num 2) oneGrantStore =
        (Except.ok r, oneGrantStore) ∧
      (r.hasAccess = some true ↔
        ∃ g ∈ oneGrantStore.grants, g.grantedto = .num 1 ∧ g.grantedby = .num 2 ∧
          g.isused = false ∧ (1000 : Int) ≤ g.expiresat) ∧
      (r.hasAccess = some true →
        ∀ g ∈ oneGrantStore.grants, g.grantedto = .num 1 → g.grantedby = .num 2 →
          r.data = some g) :=
  ⟨by decide, checkProfileAccess_hasAccess_iff 1000 (.num 1) (.num 2) oneGrantStore (by decide)⟩

theorem checkProfileAccessOn_reports (res : Response GrantRow) (now : Int)
    (h : (checkProfileAccessOn res now).success = true) :
    ∃! o, reports (checkProfileAccessOn res now) o := by
  unfold checkProfileAccessOn at h ⊢
  cases he : res.error.isSome
  · cases hd : res.data with
    | none =>
      refine ⟨.noGrant, ?_, ?_⟩
      · simp [reports]
      · intro o ho
        cases o <;> simp [reports] at ho ⊢
    | some g =>
      by_cases hu : g.isused = true
      · refine ⟨.used, ?_, ?_⟩
        · simp [reports, hu]
        · intro o ho
          cases o <;> simp [reports, hu] at ho ⊢
      · by_cases hx : now > g.expiresat
        · refine ⟨.expired, ?_, ?_⟩
          · simp [reports, hu, hx]
          · intro o ho
            cases o <;> simp [reports, hu, hx] at ho ⊢
        · refine ⟨.valid, ?_, ?_⟩
          · simp [reports, hu, hx]
          · intro o ho
            cases o <;> simp [reports, hu, hx] at ho ⊢
  · simp [he] at h

/-- C2: for the one grant row `g` that the query of `checkProfileAccess` finds, a used
row gives `{success: true, hasAccess: false, isUsed: true}` and nothing else,
whatever `now` is, an unused row with `now > expiresat` gives
`{success: true, hasAccess: false, isExpired: true}`; and whenever the result has
`success = true` (the query ran, returned no error and matched at most one row) it
reports exactly one of noGrant, used, expired, valid. -/
theorem checkProfileAccess_outcomes (now : Int) (grantedTo grantedBy : JsId) (s : Store) :
    (∀ g, grantsFor grantedTo grantedBy s = [g] →
      (g.isused = true →
        (checkProfileAccess .ok now grantedTo grantedBy s).1 =
          Except.ok { success := true, hasAccess := some false, isUsed := some true }) ∧
      (g.isused = false → now > g.expiresat →
        (checkProfileAccess .ok now grantedTo grantedBy s).1 =
          Except.ok { success := true, hasAccess := some false, isExpired := some true })) ∧
    (∀ f, ∃ r, (checkProfileAccess f now grantedTo grantedBy s).1 = Except.ok r ∧
      (r.success = true ↔ f = .ok ∧ (grantsFor grantedTo grantedBy s).length ≤ 1) ∧
      (r.success = true → ∃! o, reports r o)) := by
  constructor
  · intro g hg
    rw [checkProfileAccess_ok, hg]
    constructor
    · intro hu
      simp [maybeSingle, checkProfileAccessOn, hu]
    · intro hu hx
      simp [maybeSingle, checkProfileAccessOn, hu, hx]
  · intro f
    cases f with
    | ok =>
      refine ⟨_, by rw [checkProfileAccess_ok], ?_, checkProfileAccessOn_reports _ _⟩
      match grantsFor grantedTo grantedBy s with
      | [] => simp [maybeSingle, checkProfileAccessOn]
      | [g] =>
        by_cases hu : g.isused = true <;> by_cases hx : now > g.expiresat <;>
          simp [maybeSingle, checkProfileAccessOn, hu, hx]
      | _ :: _ :: _ => simp [maybeSingle, checkProfileAccessOn]
    | fails e =>
      exact ⟨{ success := false, hasAccess := some false }, rfl, by simp, by simp⟩
    | throws e =>
      exact ⟨{ success := false, hasAccess := some false }, rfl, by simp, by simp⟩

/-- Witness of C2: a used grant checked after its expiry reports used only. -/
theorem checkProfileAccess_outcomes_witness :
    grantsFor (.num 1) (.num 2) usedGrantStore = [usedGrant] ∧ usedGrant.isused = true ∧
      (2000 : Int) > usedGrant.expiresat ∧
      (checkProfileAccess .ok 2000 (.num 1) (.num 2) usedGrantStore).1 =
        Except.ok { success := true, hasAccess := some false, isUsed := some true } :=
  ⟨by decide, by decide, by decide,
   ((checkProfileAccess_outcomes 2000 (.num 1) (.num 2) usedGrantStore).1 usedGrant
     (by decide)).1
     (by decide)⟩

/-! ## Dates -/

theorem setHours_plus_24 (tz : TimeZone) (t : Int) :
    setHours tz t (getHours tz t + 24) = UTC tz (LocalTime tz t + 24 * msPerHour) := by
  unfold setHours getHours
  congr 1
  simp only [MakeDate, MakeTime, Day, HourFromTime, MinFromTime, SecFromTime, msFromTime,
    msPerDay, msPerHour, msPerMinute, msPerSecond]
  omega

theorem setHours_plus_24_fixedZone (offset t : Int) :
    setHours (fixedZone offset) t (getHours (fixedZone offset) t + 24) = t + 24 * msPerHour := by
  rw [setHours_plus_24]
  simp only [UTC, LocalTime, fixedZone]
  omega

/-- In the zone `easternZone`, an acceptance at 2025-03-08T15:00:00Z sets the expiry
23 hours later. -/
theorem setHours_plus_24_easternZone :
    setHours easternZone 1741446000000 (getHours easternZone 1741446000000 + 24) =
      1741446000000 + 23 * msPerHour := by
  decide

/-! ## accept, then check -/

theorem grantsFor_after_insert (senderId receiverId : JsId) (expiresAt : Int) (s : Store) :
    grantsFor senderId receiverId
        (insertGrant receiverId senderId expiresAt
          (deleteGrantsOfPair receiverId senderId s).2).2 =
      [{ id := .num s.nextId, grantedby := receiverId, grantedto := senderId,
         expiresat := expiresAt, isused := false, usedat := none }] := by
  simp only [grantsFor, insertGrant, deleteGrantsOfPair, List.filter_append, List.filter_filter]
  have h : s.grants.filter (fun g =>
      (decide (g.grantedto = senderId ∧ g.grantedby = receiverId) &&
        decide ¬ (g.grantedby = receiverId ∧ g.grantedto = senderId))) = [] := by
    rw [List.filter_eq_nil_iff]
    intro g _
    simp
    tauto
  rw [h]
  simp

/-- On a host whose UTC offset is fixed: when the delete of prior grants is carried out
and `acceptAccessRequest`, run at time `t`, returns success, then `checkProfileAccess(senderId, receiverId)` on the resulting store at any
time `t'` up to `t` + 24 hours reports valid, and the grant it returns is the one
accept returned, with `grantedby = receiverId`, `grantedto = senderId`, not used, and
`expiresat` equal to `t` + 24 hours. -/
theorem accept_then_check (f2 f3 : Fault) (offset t t' : Int)
    (requestId senderId receiverId : JsId) (s s' : Store) (r : Result GrantRow)
    (hacc : acceptAccessRequest .ok f2 f3 (fixedZone offset) t requestId senderId receiverId s =
      (Except.ok r, s'))
    (hs : r.success = true) (ht : t' ≤ t + 24 * msPerHour) :
    ∃ g, checkProfileAccess .ok t' senderId receiverId s' =
        (Except.ok { success := true, hasAccess := some true, data := some g }, s') ∧
      r.data = some g ∧ g.grantedby = receiverId ∧ g.grantedto = senderId ∧
      g.isused = false ∧ g.expiresat = t + 24 * msPerHour := by
  have hgood : ∀ s2 : Store,
      s2.grants = (insertGrant receiverId senderId (t + 24 * msPerHour)
        (deleteGrantsOfPair receiverId senderId s).2).2.grants →
      checkProfileAccess .ok t' senderId receiverId s2 =
        (Except.ok { success := true, hasAccess := some true,
                     data := some { id := .num s.nextId, grantedby := receiverId,
                                    grantedto := senderId, expiresat := t + 24 * msPerHour,
                                    isused := false, usedat := none } }, s2) := by
    intro s2 h2
    have hg : grantsFor senderId receiverId s2 = _ :=
      (show grantsFor senderId receiverId s2 = grantsFor senderId receiverId _ by
        simp only [grantsFor, h2]).trans
        (grantsFor_after_insert senderId receiverId (t + 24 * msPerHour) s)
    rw [checkProfileAccess_ok, hg]
    have : ¬ (t' > t + 24 * msPerHour) := by omega
    simp [maybeSingle, checkProfileAccessOn, this]
  cases f2 with
  | ok =>
    cases f3 with
    | ok =>
      simp only [acceptAccessRequest, request, catching, setHours_plus_24_fixedZone,
        insertGrant, single, deleteGrantsOfPair, deleteRequestById, Prod.mk.injEq,
        Except.ok.injEq] at hacc
      obtain ⟨hr, hs'⟩ := hacc
      subst hr hs'
      exact ⟨_, hgood _ rfl, rfl, rfl, rfl, rfl, rfl⟩
    | fails e =>
      simp only [acceptAccessRequest, request, catching, setHours_plus_24_fixedZone,
        insertGrant, single, deleteGrantsOfPair, Prod.mk.injEq, Except.ok.injEq] at hacc
      obtain ⟨hr, hs'⟩ := hacc
      subst hr hs'
      exact ⟨_, hgood _ rfl, rfl, rfl, rfl, rfl, rfl⟩
    | throws e =>
      simp only [acceptAccessRequest, request, catching, failWith, insertGrant, single,
        Prod.mk.injEq, Except.ok.injEq] at hacc
      rw [← hacc.1] at hs
      simp at hs
  | fails e =>
    simp only [acceptAccessRequest, request, catching, Prod.mk.injEq, Except.ok.injEq] at hacc
    rw [← hacc.1] at hs
    simp at hs
  | throws e =>
    simp only [acceptAccessRequest, request, catching, failWith, Prod.mk.injEq,
      Except.ok.injEq] at hacc
    rw [← hacc.1] at hs
    simp at hs

/-- An instance of `accept_then_check`: request 9 of user 1 accepted by user 2 at time
5000 on a host at UTC, checked at 5000 + 24 hours. -/
theorem accept_then_check_fixedZone_example :
    acceptAccessRequest .ok .ok .ok (fixedZone 0) 5000 (.num 9) (.num 1) (.num 2)
        staleGrantStore = (Except.ok acceptedResult, acceptedStore) ∧
    ∃ g, checkProfileAccess .ok (5000 + 24 * msPerHour) (.num 1) (.num 2) acceptedStore =
        (Except.ok { success := true, hasAccess := some true, data := some g }, acceptedStore) ∧
      acceptedResult.data = some g ∧ g.grantedby = .num 2 ∧ g.grantedto = .num 1 ∧
      g.isused = false ∧ g.expiresat = 5000 + 24 * msPerHour :=
  ⟨rfl, accept_then_check .ok .ok 0 5000 (5000 + 24 * msPerHour) (.num 9) (.num 1) (.num 2)
    staleGrantStore acceptedStore acceptedResult rfl rfl (by decide)⟩

/-- When the delete of prior grants returns an error, which `acceptAccessRequest` does
not look at, accept still returns success, the earlier grant of the pair stays next to
the new one, and the check that follows finds two rows and reports
`{success: false, hasAccess: false}`. -/
theorem accept_unread_delete_error :
    ∃ r s', acceptAccessRequest (.fails { message := "timeout" }) .ok .ok (fixedZone 0) 5000
        (.num 9) (.num 1) (.num 2) staleGrantStore = (Except.ok r, s') ∧
      r.success = true ∧ grantsFor (.num 1) (.num 2) s' = [usedGrant, acceptedGrant] ∧
      (checkProfileAccess .ok 5000 (.num 1) (.num 2) s').1 =
        Except.ok { success := false, hasAccess := some false } :=
  ⟨_, _, rfl, rfl, by decide, rfl⟩

/-- C3 fails on the code: on a host in `easternZone`, `acceptAccessRequest(9, 1, 2)` run
at 2025-03-08T15:00:00Z with every backend call carried out returns success with a
grant whose `expiresat` is 23 hours later, not 24, and `checkProfileAccess(1, 2)` run on
the resulting store 23 hours and 30 minutes after the acceptance reports
`{success: true, hasAccess: false, isExpired: true}`. -/
theorem accept_then_check_eastern :
    (acceptAccessRequest .ok .ok .ok easternZone easternAcceptTime (.num 9) (.num 1) (.num 2)
        staleGrantStore).1 =
        Except.ok { success := true, data := some easternGrant, senderId := some (.num 1) } ∧
      easternGrant.expiresat = easternAcceptTime + 23 * msPerHour ∧
      easternAcceptTime ≤ easternAcceptTime + 23 * msPerHour + 30 * msPerMinute ∧
      easternAcceptTime + 23 * msPerHour + 30 * msPerMinute ≤
        easternAcceptTime + 24 * msPerHour ∧
      (checkProfileAccess .ok (easternAcceptTime + 23 * msPerHour + 30 * msPerMinute)
        (.num 1) (.num 2)
        (acceptAccessRequest .ok .ok .ok easternZone easternAcceptTime (.num 9) (.num 1)
          (.num 2) staleGrantStore).2).1 =
        Except.ok { success := true, hasAccess := some false, isExpired := some true } :=
  ⟨rfl, by decide, by decide, by decide, rfl⟩

/-! ## accept: the insert fails -/

/-- C4: when the delete of prior grants does not throw and the grant insert returns
the error `e`, `acceptAccessRequest` returns `{success: false, msg: e.message}` and
the table of requests is as it was: the request is not deleted. -/
theorem accept_insert_error (f1 f3 : Fault) (e : Err) (tz : TimeZone) (t : Int)
    (requestId senderId receiverId : JsId) (s : Store) (h1 : ∀ e1, f1 ≠ .throws e1) :
    (acceptAccessRequest f1 (.fails e) f3 tz t requestId senderId receiverId s).1 =
        Except.ok { success := false, msg := some e.message } ∧
      (acceptAccessRequest f1 (.fails e) f3 tz t requestId senderId receiverId s).2.requests =
        s.requests := by
  cases f1 with
  | ok => exact ⟨rfl, rfl⟩
  | fails e1 => exact ⟨rfl, rfl⟩
  | throws e1 => exact absurd rfl (h1 e1)

/-- Witness of C4: the insert is refused while request 9 is accepted. -/
theorem accept_insert_error_witness :
    (acceptAccessRequest .ok (.fails { message := "denied" }) .ok (fixedZone 0) 5000
        (.num 9) (.num 1) (.num 2) staleGrantStore).1 =
        Except.ok { success := false, msg := some "denied" } ∧
      (acceptAccessRequest .ok (.fails { message := "denied" }) .ok (fixedZone 0) 5000
        (.num 9) (.num 1) (.num 2) staleGrantStore).2.requests = staleGrantStore.requests :=
  accept_insert_error .ok .ok { message := "denied" } (fixedZone 0) 5000 (.num 9) (.num 1)
    (.num 2) staleGrantStore (by intro e1 h; cases h)

/-! ## create -/

theorem createAccessRequest_one_pending (f2 : Fault) (senderId receiverId : JsId) (s : Store)
    (r : RequestRow) (h : pendingFor senderId receiverId s = [r]) :
    createAccessRequest .ok f2 senderId receiverId s =
      (Except.ok { success := false, msg := some "Request already pending" }, s) := by
  simp [createAccessRequest, request, catching, h, single]

theorem createAccessRequest_none_pending (f1 : Fault) (senderId receiverId : JsId) (s : Store)
    (h1 : ∀ e1, f1 ≠ .throws e1) (h : pendingFor senderId receiverId s = []) :
    createAccessRequest f1 .ok senderId receiverId s =
      (Except.ok { success := true
                   data := some { id := .num s.nextId, senderid := senderId
                                  receiverid := receiverId, status := "pending"
                                  created_at := s.dbNow } },
       { s with requests := s.requests ++
                  [{ id := .num s.nextId, senderid := senderId, receiverid := receiverId
                     status := "pending", created_at := s.dbNow }]
                nextId := s.nextId + 1 }) := by
  cases f1 with
  | ok => simp [createAccessRequest, request, catching, h, single, insertRequest]
  | fails e1 => simp [createAccessRequest, request, catching, single, insertRequest]
  | throws e1 => exact absurd rfl (h1 e1)

/-- C5 fails on the code: with two pending rows of the pair in the table, the
existence query of `createAccessRequest` (`.single()`) resolves to no row, a third
pending row is inserted and the result is `success = true`. -/
theorem createAccessRequest_two_pending :
    (pendingFor (.num 1) (.num 2) twoPendingStore).length = 2 ∧
      (createAccessRequest .ok .ok (.num 1) (.num 2) twoPendingStore).1 =
        Except.ok { success := true
                    data := some { id := .num 10, senderid := .num 1, receiverid := .num 2
                                   status := "pending", created_at := 5000 } } ∧
      (pendingFor (.num 1) (.num 2)
        (createAccessRequest .ok .ok (.num 1) (.num 2) twoPendingStore).2).length = 3 :=
  ⟨by decide, rfl, by decide⟩

/-! ## cancel -/

/-- C6: when the request delete succeeds, `cancelAccessRequest` returns
`{success: true}` whether the notification delete succeeds or returns an error; after
a run in which both deletes succeed, no request row with id `requestId` and no
notification row with `senderId`, `receiverId`, type `profile_access_request` and data
the JSON text of `{requestId}` remains; and when the request delete returns the error
`e`, the result is `{success: false, msg: e.message}` and the notifications are as
they were. -/
theorem cancelAccessRequest_spec (requestId senderId receiverId : JsId) (s : Store) :
    ((cancelAccessRequest .ok .ok requestId senderId receiverId s).1 =
        Except.ok { success := true } ∧
      ∀ e, (cancelAccessRequest .ok (.fails e) requestId senderId receiverId s).1 =
        Except.ok { success := true }) ∧
    ((∀ r ∈ (cancelAccessRequest .ok .ok requestId senderId receiverId s).2.requests,
        r.id ≠ requestId) ∧
      ∀ n ∈ (cancelAccessRequest .ok .ok requestId senderId receiverId s).2.notifications,
        ¬ (n.senderId = senderId ∧ n.receiverId = receiverId ∧
            n.type = "profile_access_request" ∧ n.data = stringifyRequestId requestId)) ∧
    (∀ e f2, (cancelAccessRequest (.fails e) f2 requestId senderId receiverId s).1 =
        Except.ok { success := false, msg := some e.message } ∧
      (cancelAccessRequest (.fails e) f2 requestId senderId receiverId s).2.notifications =
        s.notifications) := by
  refine ⟨⟨rfl, fun _ => rfl⟩, ⟨?_, ?_⟩, fun _ _ => ⟨rfl, rfl⟩⟩
  · intro r hr
    have hr' : r ∈ s.requests.filter (fun r => ¬ r.id = requestId) := hr
    simpa using (List.mem_filter.1 hr').2
  · intro n hn
    have hn' : n ∈ s.notifications.filter
        (fun n => ! isRequestNotification requestId senderId receiverId n) := hn
    have := (List.mem_filter.1 hn').2
    simp only [isRequestNotification, Bool.not_eq_true', decide_eq_false_iff_not] at this
    exact this

/-- Witness of C6: request 9 of user 1 to user 2 is cancelled; its row and its
notification go, the notification of another request stays. -/
theorem cancelAccessRequest_spec_witness :
    (cancelAccessRequest .ok .ok (.num 9) (.num 1) (.num 2) notifiedStore).2.requests = [] ∧
      (cancelAccessRequest .ok .ok (.num 9) (.num 1) (.num 2) notifiedStore).2.notifications =
        [otherNotification] ∧
      ∀ n ∈ (cancelAccessRequest .ok .ok (.num 9) (.num 1) (.num 2) notifiedStore).2.notifications,
        ¬ (n.senderId = .num 1 ∧ n.receiverId = .num 2 ∧
            n.type = "profile_access_request" ∧ n.data = stringifyRequestId (.num 9)) :=
  ⟨by decide, by decide,
   (cancelAccessRequest_spec (.num 9) (.num 1) (.num 2) notifiedStore).2.1.2⟩

/-! ## Sorting -/

theorem sortInsert_perm {α : Type} (cmp : α → α → Int) (x : α) (l : List α) :
    (sortInsert cmp x l).Perm (x :: l) := by
  induction l with
  | nil => exact List.Perm.refl _
  | cons y ys ih =>
    unfold sortInsert
    split
    · exact List.Perm.refl _
    · exact (List.Perm.cons y ih).trans (List.Perm.swap x y ys)

theorem jsSort_perm {α : Type} (cmp : α → α → Int) (l : List α) : (jsSort cmp l).Perm l := by
  induction l with
  | nil => exact List.Perm.refl _
  | cons x xs ih =>
    unfold jsSort
    exact (sortInsert_perm cmp x _).trans (List.Perm.cons x ih)

theorem sortInsert_descending {α : Type} (key : α → Int) (x : α) (l : List α)
    (h : l.Pairwise (fun a b => key a ≥ key b)) :
    (sortInsert (fun a b => key b - key a) x l).Pairwise (fun a b => key a ≥ key b) := by
  induction l with
  | nil => simp [sortInsert]
  | cons y ys ih =>
    unfold sortInsert
    rw [List.pairwise_cons] at h
    split
    · rename_i hle
      rw [List.pairwise_cons]
      refine ⟨?_, List.pairwise_cons.2 h⟩
      intro b hb
      rcases List.mem_cons.1 hb with rfl | hb
      · omega
      · have := h.1 b hb
        omega
    · rename_i hgt
      rw [List.pairwise_cons]
      refine ⟨?_, ih h.2⟩
      intro b hb
      rcases List.mem_cons.1 ((sortInsert_perm _ x ys).mem_iff.1 hb) with rfl | hb
      · omega
      · exact h.1 b hb

theorem jsSort_descending {α : Type} (key : α → Int) (l : List α) :
    (jsSort (fun a b => key b - key a) l).Pairwise (fun a b => key a ≥ key b) := by
  induction l with
  | nil => simp [jsSort]
  | cons x xs ih =>
    unfold jsSort
    exact sortInsert_descending key x _ ih

/-! ## The notification feed -/

theorem getNotifications_eq (notifRes : Result (List NotificationItem))
    (sentRes : Result (List SentRequest)) (stored : List NotificationItem)
    (sent : List SentRequest) (h1 : notifRes.success = true) (hd1 : notifRes.data = some stored)
    (h2 : sentRes.success = true) (hd2 : sentRes.data = some sent) :
    getNotifications notifRes sentRes =
      some (jsSort (fun a b => b.created_at - a.created_at)
        (stored ++ sent.map sentAsNotification)) := by
  cases sent with
  | nil => simp [getNotifications, h1, hd1, h2, hd2]
  | cons x xs => simp [getNotifications, h1, hd1, h2, hd2]

/-- C7: for `N` stored notifications and `M` sent requests returned by two successful
fetches, the list that `getNotifications` assembles is a rearrangement of the stored
notifications followed by the reshaped requests, so it has `N + M` items; the item built
from a request `req` is in the list, its id is `sent-` followed by `req.id`, and that id
differs from the id of every stored notification; and the list is non-increasing in
`created_at`. -/
theorem getNotifications_merge (notifRes : Result (List NotificationItem))
    (sentRes : Result (List SentRequest)) (stored : List StoredNotification)
    (sent : List SentRequest) (h1 : notifRes.success = true)
    (hd1 : notifRes.data = some (stored.map StoredNotification.toItem))
    (h2 : sentRes.success = true) (hd2 : sentRes.data = some sent) :
    ∃ items, getNotifications notifRes sentRes = some items ∧
      items.Perm (stored.map StoredNotification.toItem ++ sent.map sentAsNotification) ∧
      items.length = stored.length + sent.length ∧
      (∀ req ∈ sent, sentAsNotification req ∈ items ∧
        (sentAsNotification req).id = .str ("sent-" ++ req.id.toText) ∧
        ∀ n ∈ stored, n.toItem ∈ items ∧ (sentAsNotification req).id ≠ n.toItem.id) ∧
      items.Pairwise (fun a b => a.created_at ≥ b.created_at) := by
  have hperm := jsSort_perm (fun a b : NotificationItem => b.created_at - a.created_at)
    (stored.map StoredNotification.toItem ++ sent.map sentAsNotification)
  refine ⟨_, getNotifications_eq notifRes sentRes _ sent h1 hd1 h2 hd2, hperm, ?_, ?_,
    jsSort_descending (fun a : NotificationItem => a.created_at) _⟩
  · rw [hperm.length_eq]
    simp
  · intro req hreq
    refine ⟨hperm.mem_iff.2 (List.mem_append_right _ (List.mem_map_of_mem _ hreq)), rfl, ?_⟩
    intro n hn
    refine ⟨hperm.mem_iff.2 (List.mem_append_left _ (List.mem_map_of_mem _ hn)), ?_⟩
    intro h
    cases h

/-- Witness of C7: two stored notifications with the keys 7 and 8 and two sent requests
with the keys 7 and 8. -/
theorem getNotifications_merge_witness :
    ∃ items, getNotifications
        { success := true, data := some (storedItems.map StoredNotification.toItem) }
        { success := true, data := some sentItems } = some items ∧
      items.Perm (storedItems.map StoredNotification.toItem ++
        sentItems.map sentAsNotification) ∧
      items.length = storedItems.length + sentItems.length ∧
      (∀ req ∈ sentItems, sentAsNotification req ∈ items ∧
        (sentAsNotification req).id = .str ("sent-" ++ req.id.toText) ∧
        ∀ n ∈ storedItems, n.toItem ∈ items ∧ (sentAsNotification req).id ≠ n.toItem.id) ∧
      items.Pairwise (fun a b => a.created_at ≥ b.created_at) :=
  getNotifications_merge _ _ storedItems sentItems rfl rfl rfl rfl

/-! ## The post feed -/

theorem getPosts_exhausted (fetchPosts : Nat → JsId → Result (List Post)) (user : Option JsId)
    (st : FeedState) (h : st.hasMore = false) : getPosts fetchPosts user st = (st, none) := by
  cases user <;> simp [getPosts, h]

theorem getPosts_fetchFrom (all : List Post) (userId : JsId) (st : FeedState)
    (h : st.hasMore = true) :
    getPosts (fetchFrom all) (some userId) st =
      ({ posts := all.take (st.limit + 4)
         hasMore := if st.posts.length = (all.take (st.limit + 4)).length then false else true
         limit := st.limit + 4 }, some (st.limit + 4)) := by
  simp [getPosts, fetchFrom, h]

theorem feedAfter_succ (all : List Post) (userId : JsId) (k : Nat) :
    feedAfter all userId (k + 1) =
      (getPosts (fetchFrom all) (some userId) (feedAfter all userId k)).1 := rfl

theorem feedAfter_growing (all : List Post) (userId : JsId) (j : Nat)
    (h : 4 * j < all.length + 4) :
    feedAfter all userId j = { posts := all.take (4 * j), hasMore := true, limit := 4 * j } := by
  induction j with
  | zero => simp [feedAfter, getPostsTimes, FeedState.initial]
  | succ j ih =>
    rw [feedAfter_succ, ih (by omega), getPosts_fetchFrom _ _ _ rfl]
    have hne : ¬ (min (4 * j) all.length = min (4 * j + 4) all.length) := by omega
    simp [List.length_take, hne, Nat.mul_succ]

theorem feedAfter_lastFetch (all : List Post) (userId : JsId) :
    feedAfter all userId (lastFetch all.length) =
      { posts := all, hasMore := false, limit := 4 * lastFetch all.length } := by
  unfold lastFetch
  rw [feedAfter_succ, feedAfter_growing all userId _ (by omega), getPosts_fetchFrom _ _ _ rfl]
  have he : min (4 * ((all.length + 3) / 4)) all.length =
      min (4 * ((all.length + 3) / 4) + 4) all.length := by omega
  have ht : all.take (4 * ((all.length + 3) / 4) + 4) = all :=
    List.take_of_length_le (by omega)
  simp [List.length_take, he, ht, Nat.mul_succ]
  omega

theorem feedAfter_stable (all : List Post) (userId : JsId) (m : Nat)
    (h : lastFetch all.length ≤ m) :
    feedAfter all userId m = feedAfter all userId (lastFetch all.length) := by
  induction m with
  | zero =>
    have : lastFetch all.length = 0 := by omega
    rw [this]
  | succ m ih =>
    rcases Nat.lt_or_ge m (lastFetch all.length) with hlt | hge
    · have : m + 1 = lastFetch all.length := by omega
      rw [this]
    · rw [feedAfter_succ, ih hge, getPosts_exhausted _ _ _ (by rw [feedAfter_lastFetch])]

/-- C8, amended: from the initial state, against a backend holding fewer than 4 posts,
the first successful fetch displays them all and leaves `hasMore` false only when
there are none; with 1 to 3 posts `hasMore` is still true after the first fetch, and it
is false after the second. -/
theorem getPosts_short_backend (all : List Post) (userId : JsId) (h : all.length < 4) :
    (feedAfter all userId 1).posts = all ∧
      ((feedAfter all userId 1).hasMore = false ↔ all = []) ∧
      (feedAfter all userId 2).posts = all ∧
      (feedAfter all userId 2).hasMore = false := by
  have h2 : feedAfter all userId 2 = _ :=
    (feedAfter_stable all userId 2 (by unfold lastFetch; omega)).trans
      (feedAfter_lastFetch all userId)
  refine ⟨?_, ?_, by rw [h2], by rw [h2]⟩
  · rw [feedAfter_succ, feedAfter_growing all userId 0 (by omega), getPosts_fetchFrom _ _ _ rfl]
    exact List.take_of_length_le (by simp; omega)
  · cases all with
    | nil => simp [feedAfter, getPostsTimes, getPosts, fetchFrom, FeedState.initial]
    | cons p ps =>
      rw [feedAfter_growing _ userId 1 (by simp)]
      simp

/-- Witness of C8, amended: a backend holding 2 posts. -/
theorem getPosts_short_backend_witness :
    (feedAfter (postsTo 2) (.num 1) 1).posts = postsTo 2 ∧
      ((feedAfter (postsTo 2) (.num 1) 1).hasMore = false ↔ postsTo 2 = []) ∧
      (feedAfter (postsTo 2) (.num 1) 2).posts = postsTo 2 ∧
      (feedAfter (postsTo 2) (.num 1) 2).hasMore = false :=
  getPosts_short_backend (postsTo 2) (.num 1) (by decide)

/-- C8 as stated fails: against a backend holding 2 posts, the first call of `getPosts`
fetches with limit 4, succeeds and displays the 2 posts, and `hasMore` is still true. -/
theorem getPosts_short_backend_counterexample :
    (postsTo 2).length < 4 ∧
      getPosts (fetchFrom (postsTo 2)) (some (.num 1)) FeedState.initial =
        ({ posts := postsTo 2, hasMore := true, limit := 4 }, some 4) := by
  decide

/-- C9: against a backend holding the posts `all`, every fetch succeeding, `hasMore`
is true before each of the first `lastFetch` calls of `getPosts`, each of which
fetches, and the list a fetch returns is as long as the list displayed before it at
the last of them only; after that fetch `hasMore` is false and the displayed list is
`all`; and every later call leaves the state as it is and fetches nothing. -/
theorem getPosts_exhausts (all : List Post) (userId : JsId) :
    (∀ j, j < lastFetch all.length →
      (feedAfter all userId j).hasMore = true ∧
      (getPosts (fetchFrom all) (some userId) (feedAfter all userId j)).2 = some (4 * (j + 1)) ∧
      ((feedAfter all userId (j + 1)).posts = all.take (4 * (j + 1))) ∧
      ((feedAfter all userId (j + 1)).posts.length = (feedAfter all userId j).posts.length ↔
        j + 1 = lastFetch all.length)) ∧
    (feedAfter all userId (lastFetch all.length)).hasMore = false ∧
    (feedAfter all userId (lastFetch all.length)).posts = all ∧
    (∀ m, lastFetch all.length ≤ m →
      feedAfter all userId m = feedAfter all userId (lastFetch all.length) ∧
      getPosts (fetchFrom all) (some userId) (feedAfter all userId m) =
        (feedAfter all userId m, none)) := by
  refine ⟨?_, by rw [feedAfter_lastFetch], by rw [feedAfter_lastFetch], ?_⟩
  · intro j hj
    have hj' : 4 * j < all.length + 4 := by unfold lastFetch at hj; omega
    have hst := feedAfter_growing all userId j hj'
    have hnext : feedAfter all userId (j + 1) =
        { posts := all.take (4 * j + 4)
          hasMore := if (all.take (4 * j)).length = (all.take (4 * j + 4)).length then false
                     else true
          limit := 4 * j + 4 } := by
      rw [feedAfter_succ, hst, getPosts_fetchFrom _ _ _ rfl]
    refine ⟨by rw [hst], ?_, ?_, ?_⟩
    · rw [hst, getPosts_fetchFrom _ _ _ rfl]
      simp [Nat.mul_succ]
    · rw [hnext, Nat.mul_succ]
    · rw [hnext, hst]
      simp only [List.length_take]
      unfold lastFetch at hj ⊢
      omega
  · intro m hm
    have hs := feedAfter_stable all userId m hm
    refine ⟨hs, ?_⟩
    exact getPosts_exhausted _ _ _ (by rw [hs, feedAfter_lastFetch])

/-- Witness of C9: a backend holding 6 posts is found exhausted at the third fetch. -/
theorem getPosts_exhausts_witness :
    lastFetch (postsTo 6).length = 3 ∧
      (feedAfter (postsTo 6) (.num 1) 2).hasMore = true ∧
      (feedAfter (postsTo 6) (.num 1) 3).hasMore = false ∧
      (feedAfter (postsTo 6) (.num 1) 3).posts = postsTo 6 ∧
      feedAfter (postsTo 6) (.num 1) 5 = feedAfter (postsTo 6) (.num 1) (lastFetch (postsTo 6).length) ∧
      getPosts (fetchFrom (postsTo 6)) (some (.num 1)) (feedAfter (postsTo 6) (.num 1) 5) =
        (feedAfter (postsTo 6) (.num 1) 5, none) :=
  ⟨by decide, ((getPosts_exhausts (postsTo 6) (.num 1)).1 2 (by decide)).1, by decide,
   by decide, (getPosts_exhausts (postsTo 6) (.num 1)).2.2.2 5 (by decide)⟩

/-! ## Failures of the backend -/

theorem oneCall_returns (f : Fault) (exec : Store → Response Unit × Store) (s : Store) :
    returns (oneCall f exec s) := by
  cases f with
  | ok =>
    simp only [oneCall, request, catching, returns]
    split <;> rename_i h <;> split at h <;> simp_all
  | fails e => exact ⟨_, rfl⟩
  | throws e => exact ⟨_, rfl⟩

theorem oneCall_failure (f : Fault) (e : Err) (exec : Store → Response Unit × Store)
    (s : Store) (h : f.failsWith e) : returnsFailure (oneCall f exec s) e := by
  rcases h with rfl | rfl <;> rfl

theorem oneQuery_returns {α : Type} (f : Fault) (exec : Store → Response α × Store)
    (s : Store) : returns (oneQuery f exec s) := by
  cases f with
  | ok =>
    simp only [oneQuery, request, catching, returns]
    split <;> rename_i h <;> split at h <;> simp_all
  | fails e => exact ⟨_, rfl⟩
  | throws e => exact ⟨_, rfl⟩

theorem oneQuery_failure {α : Type} (f : Fault) (e : Err) (exec : Store → Response α × Store)
    (s : Store) (h : f.failsWith e) : returnsFailure (oneQuery f exec s) e := by
  rcases h with rfl | rfl <;> rfl

theorem createAccessRequest_returns (f1 f2 : Fault) (senderId receiverId : JsId) (s : Store) :
    returns (createAccessRequest f1 f2 senderId receiverId s) := by
  unfold returns createAccessRequest catching
  split
  · exact ⟨_, rfl⟩
  · exact ⟨_, rfl⟩

theorem acceptAccessRequest_returns (f1 f2 f3 : Fault) (tz : TimeZone) (t : Int)
    (requestId senderId receiverId : JsId) (s : Store) :
    returns (acceptAccessRequest f1 f2 f3 tz t requestId senderId receiverId s) := by
  unfold returns acceptAccessRequest catching
  split
  · exact ⟨_, rfl⟩
  · exact ⟨_, rfl⟩

theorem cancelAccessRequest_returns (f1 f2 : Fault) (requestId senderId receiverId : JsId)
    (s : Store) : returns (cancelAccessRequest f1 f2 requestId senderId receiverId s) := by
  unfold returns cancelAccessRequest catching
  split
  · exact ⟨_, rfl⟩
  · exact ⟨_, rfl⟩

theorem checkProfileAccess_returns (f : Fault) (now : Int) (grantedTo grantedBy : JsId)
    (s : Store) : returns (checkProfileAccess f now grantedTo grantedBy s) := by
  unfold returns checkProfileAccess catching
  split
  · exact ⟨_, rfl⟩
  · exact ⟨_, rfl⟩


/-- C10, amended: on every store and for every behaviour of the backend, each of the
nine operations of the service returns (none throws). `getAccessRequests`,
`getSentAccessRequests`, `rejectAccessRequest`, `useProfileAccess` and
`deleteProfileAccess` return `{success: false, msg: e.message}` when their call returns
the error `e` or throws `e`. `createAccessRequest` and `acceptAccessRequest` return it
when one of their calls throws `e` or their insert returns the error `e`;
`cancelAccessRequest` returns it when one of its calls throws `e` or its request delete
returns the error `e`. `checkProfileAccess` returns
`{success: false, hasAccess: false}`, which has no `msg`, when its query returns an
error or throws. -/
theorem service_failures (s : Store) :
    ((∀ f1 f2 a b, returns (createAccessRequest f1 f2 a b s)) ∧
      (∀ f u, returns (getAccessRequests f u s)) ∧
      (∀ f u, returns (getSentAccessRequests f u s)) ∧
      (∀ f1 f2 f3 tz t q a b, returns (acceptAccessRequest f1 f2 f3 tz t q a b s)) ∧
      (∀ f q, returns (rejectAccessRequest f q s)) ∧
      (∀ f now a b, returns (checkProfileAccess f now a b s)) ∧
      (∀ f now g, returns (useProfileAccess f now g s)) ∧
      (∀ f1 f2 q a b, returns (cancelAccessRequest f1 f2 q a b s)) ∧
      (∀ f g, returns (deleteProfileAccess f g s))) ∧
    ((∀ f e u, f.failsWith e → returnsFailure (getAccessRequests f u s) e) ∧
      (∀ f e u, f.failsWith e → returnsFailure (getSentAccessRequests f u s) e) ∧
      (∀ f e q, f.failsWith e → returnsFailure (rejectAccessRequest f q s) e) ∧
      (∀ f e now g, f.failsWith e → returnsFailure (useProfileAccess f now g s) e) ∧
      (∀ f e g, f.failsWith e → returnsFailure (deleteProfileAccess f g s) e)) ∧
    ((∀ e f2 a b, returnsFailure (createAccessRequest (.throws e) f2 a b s) e) ∧
      (∀ f1 f2 e a b, (∀ e1, f1 ≠ .throws e1) → (f1 = .ok → ∀ r, pendingFor a b s ≠ [r]) →
        f2.failsWith e → returnsFailure (createAccessRequest f1 f2 a b s) e)) ∧
    ((∀ e f2 f3 tz t q a b,
        returnsFailure (acceptAccessRequest (.throws e) f2 f3 tz t q a b s) e) ∧
      (∀ f1 f2 f3 e tz t q a b, (∀ e1, f1 ≠ .throws e1) → f2.failsWith e →
        returnsFailure (acceptAccessRequest f1 f2 f3 tz t q a b s) e) ∧
      (∀ f1 e tz t q a b, (∀ e1, f1 ≠ .throws e1) →
        returnsFailure (acceptAccessRequest f1 .ok (.throws e) tz t q a b s) e)) ∧
    ((∀ f1 f2 e q a b, f1.failsWith e →
        returnsFailure (cancelAccessRequest f1 f2 q a b s) e) ∧
      (∀ e q a b, returnsFailure (cancelAccessRequest .ok (.throws e) q a b s) e)) ∧
    (∀ f e now a b, f.failsWith e →
      (checkProfileAccess f now a b s).1 =
        Except.ok { success := false, hasAccess := some false }) := by
  refine ⟨⟨?_, ?_, ?_, ?_, ?_, ?_, ?_, ?_, ?_⟩, ⟨?_, ?_, ?_, ?_, ?_⟩, ⟨?_, ?_⟩, ⟨?_, ?_, ?_⟩,
    ⟨?_, ?_⟩, ?_⟩
  · intro f1 f2 a b
    exact createAccessRequest_returns f1 f2 a b s
  · intro f u
    exact oneQuery_returns f _ s
  · intro f u
    exact oneQuery_returns f _ s
  · intro f1 f2 f3 tz t q a b
    exact acceptAccessRequest_returns f1 f2 f3 tz t q a b s
  · intro f q
    exact oneCall_returns f _ s
  · intro f now a b
    exact checkProfileAccess_returns f now a b s
  · intro f now g
    exact oneCall_returns f _ s
  · intro f1 f2 q a b
    exact cancelAccessRequest_returns f1 f2 q a b s
  · intro f g
    exact oneCall_returns f _ s
  · intro f e u h
    exact oneQuery_failure f e _ s h
  · intro f e u h
    exact oneQuery_failure f e _ s h
  · intro f e q h
    exact oneCall_failure f e _ s h
  · intro f e now g h
    exact oneCall_failure f e _ s h
  · intro f e g h
    exact oneCall_failure f e _ s h
  · intro e f2 a b
    rfl
  · intro f1 f2 e a b h1 hp h2
    cases f1 with
    | ok =>
      have hnone : (single ((pendingFor a b s).map (fun r => r.id))).data = none := by
        match hl : pendingFor a b s with
        | [] => rfl
        | [r] => exact absurd hl (hp rfl r)
        | _ :: _ :: _ => rfl
      rcases h2 with rfl | rfl <;>
        simp [returnsFailure, createAccessRequest, request, catching, hnone, failWith]
    | fails e1 => rcases h2 with rfl | rfl <;> rfl
    | throws e1 => exact absurd rfl (h1 e1)
  · intro e f2 f3 tz t q a b
    rfl
  · intro f1 f2 f3 e tz t q a b h1 h2
    cases f1 with
    | ok => rcases h2 with rfl | rfl <;> rfl
    | fails e1 => rcases h2 with rfl | rfl <;> rfl
    | throws e1 => exact absurd rfl (h1 e1)
  · intro f1 e tz t q a b h1
    cases f1 with
    | ok => rfl
    | fails e1 => rfl
    | throws e1 => exact absurd rfl (h1 e1)
  · intro f1 f2 e q a b h
    rcases h with rfl | rfl <;> rfl
  · intro e q a b
    rfl
  · intro f e now a b h
    rcases h with rfl | rfl <;> rfl

/-- Witness of C10, amended: the backend refuses the delete of `rejectAccessRequest`. -/
theorem service_failures_witness :
    Fault.failsWith (.fails { message := "denied" }) { message := "denied" } ∧
      returnsFailure (rejectAccessRequest (.fails { message := "denied" }) (.num 9)
        staleGrantStore) { message := "denied" } :=
  ⟨Or.inl rfl,
   (service_failures staleGrantStore).2.1.2.2.1 (.fails { message := "denied" })
     { message := "denied" } (.num 9) (Or.inl rfl)⟩

/-- C10 as stated fails: when its query returns an error, `checkProfileAccess` returns
`{success: false, hasAccess: false}`, an object without a `msg` field. -/
theorem checkProfileAccess_failure_counterexample :
    ∃ r, (checkProfileAccess (.fails { message := "timeout" }) 5000 (.num 1) (.num 2)
        staleGrantStore).1 = Except.ok r ∧ r.success = false ∧ r.msg = none :=
  ⟨_, rfl, rfl, rfl⟩

/-! ## Refresh -/

/-- C12: on every state of the feed and for every `fetchPosts`, when the fetch of
`onRefresh` succeeds with the list `data`, the limit requested is `L`, the number of
posts displayed if that is positive and 4 otherwise, `limit` becomes `L`, the
displayed list becomes `data`, and `hasMore` ends false exactly when `data` has fewer
than `L` posts (so true otherwise, whatever it was before). -/
theorem onRefresh_spec (fetchPosts : Nat → JsId → Result (List Post)) (userId : JsId)
    (refreshing : Bool) (st : FeedState) (data : List Post)
    (hs : (fetchPosts (refreshLimit st) userId).success = true)
    (hd : (fetchPosts (refreshLimit st) userId).data = some data) :
    refreshLimit st = (if st.posts.length > 0 then st.posts.length else 4) ∧
      (onRefresh fetchPosts (some userId) refreshing st).requested = some (refreshLimit st) ∧
      (onRefresh fetchPosts (some userId) refreshing st).state.limit = refreshLimit st ∧
      (onRefresh fetchPosts (some userId) refreshing st).state.posts = data ∧
      ((onRefresh fetchPosts (some userId) refreshing st).state.hasMore = false ↔
        data.length < refreshLimit st) ∧
      ((onRefresh fetchPosts (some userId) refreshing st).state.hasMore = true ↔
        ¬ data.length < refreshLimit st) := by
  refine ⟨rfl, ?_, ?_, ?_, ?_, ?_⟩ <;> simp only [onRefresh, hs, hd, if_true]
  · by_cases h : data.length < refreshLimit st <;> simp [h]
  · by_cases h : data.length < refreshLimit st <;> simp [h]

/-- Witness of C12: a feed that displays 3 posts and was found exhausted is refreshed
against a backend that now holds 6; 3 posts are requested and `hasMore` is true again. -/
theorem onRefresh_spec_witness :
    exhaustedFeed.hasMore = false ∧ refreshLimit exhaustedFeed = 3 ∧
      (onRefresh (fetchFrom (postsTo 6)) (some (.num 1)) false exhaustedFeed).requested =
        some 3 ∧
      (onRefresh (fetchFrom (postsTo 6)) (some (.num 1)) false exhaustedFeed).state.posts =
        (postsTo 6).take 3 ∧
      ((onRefresh (fetchFrom (postsTo 6)) (some (.num 1)) false exhaustedFeed).state.hasMore =
          true ↔ ¬ ((postsTo 6).take 3).length < refreshLimit exhaustedFeed) :=
  ⟨rfl, by decide,
   (onRefresh_spec (fetchFrom (postsTo 6)) (.num 1) false exhaustedFeed ((postsTo 6).take 3)
     rfl rfl).2.1,
   (onRefresh_spec (fetchFrom (postsTo 6)) (.num 1) false exhaustedFeed ((postsTo 6).take 3)
     rfl rfl).2.2.2.1,
   (onRefresh_spec (fetchFrom (postsTo 6)) (.num 1) false exhaustedFeed ((postsTo 6).take 3)
     rfl rfl).2.2.2.2.2⟩

/-! ## At most one pending request per pair -/

theorem pendingFor_of_filter (senderId receiverId : JsId) (s s' : Store) (q : RequestRow → Bool)
    (h : s'.requests = s.requests.filter q) :
    (pendingFor senderId receiverId s').length ≤ (pendingFor senderId receiverId s).length := by
  unfold pendingFor
  rw [h, List.filter_filter]
  have : (List.filter (fun a => (decide (a.senderid = senderId ∧ a.receiverid = receiverId ∧
      a.status = "pending") && q a)) s.requests) =
      List.filter q (List.filter (fun r => decide (r.senderid = senderId ∧
        r.receiverid = receiverId ∧ r.status = "pending")) s.requests) := by
    rw [List.filter_filter]
    congr 1
    funext a
    exact Bool.and_comm _ _
  rw [this]
  exact List.length_filter_le _ _

theorem atMostOnePending_of_filter (s s' : Store) (q : RequestRow → Bool)
    (h : s'.requests = s.requests.filter q) (hinv : atMostOnePending s) :
    atMostOnePending s' := fun a b =>
  Nat.le_trans (pendingFor_of_filter a b s s' q h) (hinv a b)

theorem atMostOnePending_of_requests (s s' : Store) (h : s'.requests = s.requests)
    (hinv : atMostOnePending s) : atMostOnePending s' := by
  intro a b
  have : pendingFor a b s' = pendingFor a b s := by simp only [pendingFor, h]
  rw [this]
  exact hinv a b

theorem atMostOnePending_create (senderId receiverId : JsId) (s : Store)
    (hinv : atMostOnePending s) :
    atMostOnePending (createAccessRequest .ok .ok senderId receiverId s).2 := by
  match hp : pendingFor senderId receiverId s, hinv senderId receiverId with
  | [], _ =>
    rw [createAccessRequest_none_pending .ok senderId receiverId s (by intro e h; cases h) hp]
    intro a b
    by_cases hab : senderId = a ∧ receiverId = b
    · obtain ⟨rfl, rfl⟩ := hab
      have := hp
      simp only [pendingFor] at this ⊢
      rw [List.filter_append, this, List.nil_append]
      exact List.length_filter_le _ _
    · have := hinv a b
      simp only [pendingFor] at this ⊢
      simp only [List.filter_append, List.length_append]
      have hz : (List.filter (fun r : RequestRow => decide (r.senderid = a ∧ r.receiverid = b ∧
          r.status = "pending"))
          [{ id := .num s.nextId, senderid := senderId, receiverid := receiverId,
             status := "pending", created_at := s.dbNow }]) = [] := by
        rw [List.filter_eq_nil_iff]
        intro r hr
        rw [List.mem_singleton] at hr
        subst hr
        simp
        intro h1 h2
        exact absurd ⟨h1, h2⟩ hab
      rw [hz]
      simpa using this
  | [r], _ =>
    rw [createAccessRequest_one_pending .ok senderId receiverId s r hp]
    exact hinv
  | _ :: _ :: _, h => simp at h

theorem atMostOnePending_run (op : Op) (s : Store) (hinv : atMostOnePending s) :
    atMostOnePending (Op.run s op) := by
  cases op with
  | createAccessRequest senderId receiverId =>
    exact atMostOnePending_create senderId receiverId s hinv
  | acceptAccessRequest tz t requestId senderId receiverId =>
    exact atMostOnePending_of_filter s _ (fun r => decide (¬ r.id = requestId)) rfl hinv
  | rejectAccessRequest requestId =>
    exact atMostOnePending_of_filter s _ (fun r => decide (¬ r.id = requestId)) rfl hinv
  | cancelAccessRequest requestId senderId receiverId =>
    exact atMostOnePending_of_filter s _ (fun r => decide (¬ r.id = requestId)) rfl hinv
  | useProfileAccess now grantId => exact atMostOnePending_of_requests s _ rfl hinv
  | deleteProfileAccess grantId => exact atMostOnePending_of_requests s _ rfl hinv

/-- C11: from a store in which each (sender, receiver) pair has at most one pending
request, every store reached by a sequence of `createAccessRequest`,
`acceptAccessRequest`, `rejectAccessRequest`, `cancelAccessRequest`,
`useProfileAccess` and `deleteProfileAccess`, each run after the other with every
backend call carried out, has at most one pending request per pair. -/
theorem runOps_atMostOnePending (s : Store) (hinv : atMostOnePending s) (ops : List Op) :
    atMostOnePending (runOps s ops) := by
  induction ops generalizing s with
  | nil => exact hinv
  | cons op ops ih => exact ih (Op.run s op) (atMostOnePending_run op s hinv)

/-- Witness of C11: the operations `sampleOps` run on `notifiedStore`, which holds one
pending request; at the end user 1 has one pending request to user 2 and it is the
only row of the table. -/
theorem runOps_atMostOnePending_witness :
    atMostOnePending notifiedStore ∧
      (pendingFor (.num 1) (.num 2) (runOps notifiedStore sampleOps)).length = 1 ∧
      (runOps notifiedStore sampleOps).requests.length = 1 ∧
      atMostOnePending (runOps notifiedStore sampleOps) :=
  ⟨fun _ _ => List.length_filter_le _ _, by decide, by decide,
   runOps_atMostOnePending notifiedStore (fun _ _ => List.length_filter_le _ _) sampleOps⟩

end Picsgram
